import Mathlib

/-!
Shallow embedding of `src/uptime_monitor.py` (class `UptimeMonitor`):
the check dispatch, the up/down incident state machine, the metric
aggregation queries, and manual incident resolution.

Modelling conventions:
- The SQLite tables `monitors`, `heartbeats`, `incidents` become three
  lists inside a `DB` structure; an SQL `UPDATE ... WHERE id = ?` becomes
  a `List.map` replacing the rows whose id matches, `SELECT ... WHERE
  id = ? ... fetchone()` becomes `List.find?`.
- Timestamps are integers (seconds).  The Python code stores
  `datetime.now().isoformat()` strings and compares them with `>`;
  ISO-8601 strings of a single clock compare lexicographically exactly
  as the instants compare, so integer order is a faithful model.  `now`
  is an explicit argument everywhere `datetime.now()` is called.
- Response times are rationals (`ℚ`), standing for the real-valued
  millisecond measurements; the aggregation arithmetic is exact.
- Network I/O (requests.get, socket, subprocess ping, ssl) is abstracted
  as an oracle `net : Checker → ProbeResult` giving, for each of the four
  probe executors of the source, the dict that executor would produce
  for this monitor's target at this instant.  The lookup-failed branch
  of every `check_*` method is kept concrete because it is decided by
  the store, not the network.
- `uuid.uuid4()` incident ids are nondeterministic; the fresh id is an
  explicit argument `freshId` of `run_check`.
-/

namespace BlackroadUptime

/-- Row of the `monitors` table / dataclass `Monitor` of the source. -/
structure Monitor where
  id : String
  name : String
  type : String
  target : String
  interval_s : Int
  timeout_s : Int
  retries : Int
  status : String
  up_since : Option Int
  last_check : Option Int
  response_time_ms : Option ℚ
  cert_expiry_days : Option Int
  tags : List String
deriving Repr, DecidableEq

/-- Row of the append-only `heartbeats` table. -/
structure Heartbeat where
  monitor_id : String
  timestamp : Int
  status : String
  response_time_ms : Option ℚ
deriving Repr, DecidableEq

/-- Row of the `incidents` table / dataclass `Incident` of the source. -/
structure Incident where
  id : String
  monitor_id : String
  started_at : Int
  resolved_at : Option Int
  duration_s : Option Int
  cause : String
  notified : Bool
deriving Repr, DecidableEq

/-- The persistent store: the three tables the engine reads and writes. -/
structure DB where
  monitors : List Monitor
  heartbeats : List Heartbeat
  incidents : List Incident
deriving Repr, DecidableEq

/-- The dict returned by the `check_*` methods: `status` plus the
optional measurement fields. -/
structure ProbeResult where
  status : String
  response_time_ms : Option ℚ
  status_code : Option Int
  cert_expiry_days : Option Int
  reason : Option String
deriving Repr, DecidableEq

/-- The four probe executors implemented in the source
(`check_http`, `check_tcp`, `check_ping`, `check_cert`). -/
inductive Checker where
  | http
  | tcp
  | ping
  | cert
deriving Repr, DecidableEq

/-- The `{"status": "error", "reason": "monitor not found"}` dict
every `check_*` method returns when the monitor id is absent. -/
def notFoundResult : ProbeResult :=
  { status := "error", response_time_ms := none, status_code := none,
    cert_expiry_days := none, reason := some "monitor not found" }

/-- The `{"status": "unknown"}` dict of `run_check`'s fall-through
dispatch branch. -/
def unknownResult : ProbeResult :=
  { status := "unknown", response_time_ms := none, status_code := none,
    cert_expiry_days := none, reason := none }

/-- The `SELECT ... FROM monitors WHERE id = ?` + `fetchone()` pattern. -/
def findMonitor (s : DB) (mid : String) : Option Monitor :=
  s.monitors.find? (fun m => m.id == mid)

/-- Source `check_http` (lines 148-182): look the monitor up; absent id
yields the explicit not-found dict; otherwise the HTTP probe result is
whatever the network oracle says the HTTP executor returns. -/
def check_http (net : Checker → ProbeResult) (s : DB) (mid : String) : ProbeResult :=
  match findMonitor s mid with
  | none => notFoundResult
  | some _ => net Checker.http

/-- Source `check_tcp` (lines 184-207): same lookup-then-probe shape. -/
def check_tcp (net : Checker → ProbeResult) (s : DB) (mid : String) : ProbeResult :=
  match findMonitor s mid with
  | none => notFoundResult
  | some _ => net Checker.tcp

/-- Source `check_ping` (lines 209-233): same lookup-then-probe shape. -/
def check_ping (net : Checker → ProbeResult) (s : DB) (mid : String) : ProbeResult :=
  match findMonitor s mid with
  | none => notFoundResult
  | some _ => net Checker.ping

/-- Source `check_cert` (lines 235-251): same lookup-then-probe shape. -/
def check_cert (net : Checker → ProbeResult) (s : DB) (mid : String) : ProbeResult :=
  match findMonitor s mid with
  | none => notFoundResult
  | some _ => net Checker.cert

/-- The dispatch table of `run_check` (source lines 284-293): `http`,
`tcp` and `ping` go to their own executors; `dns` is routed to the ping
executor (the source line carries the comment `# Simplified`); every
other type — `cert` included, which has no dispatch arm even though the
`check_cert` executor exists — falls through to the unknown branch,
modelled as `none`. -/
def dispatch (t : String) : Option Checker :=
  if t == "http" then some Checker.http
  else if t == "tcp" then some Checker.tcp
  else if t == "ping" then some Checker.ping
  else if t == "dns" then some Checker.ping
  else none

/-- The probe-result computation of `run_check` (lines 283-293): call
the dispatched executor, or produce `{"status": "unknown"}` when no
executor matches the type. -/
def dispatch_result (net : Checker → ProbeResult) (s : DB) (mid : String)
    (t : String) : ProbeResult :=
  match dispatch t with
  | some Checker.http => check_http net s mid
  | some Checker.tcp => check_tcp net s mid
  | some Checker.ping => check_ping net s mid
  | some Checker.cert => check_cert net s mid
  | none => unknownResult

/-- The monitor-row update of `run_check` (lines 299-311): status,
last_check, response_time_ms, cert_expiry_days are overwritten from the
result; `up_since` keeps its stored value when the new status is `up`
and that value is non-null, becomes `now` when the new status is `up`
and the stored value is null, and is nulled for any non-`up` status. -/
def advance_monitor (m : Monitor) (result : ProbeResult) (now : Int) : Monitor :=
  { m with
    status := result.status
    last_check := some now
    response_time_ms := result.response_time_ms
    cert_expiry_days := result.cert_expiry_days
    up_since :=
      if result.status == "up" then
        match m.up_since with
        | some u => some u
        | none => some now
      else none }

/-- Source `run_check` (lines 271-330).  Missing monitor: return
`False` with the store untouched.  Otherwise: dispatch the probe,
update the monitor row, append a heartbeat, and insert a fresh open
incident exactly when the stored status was `up` and the new one is
`down` (cause taken from the result's `reason`, defaulting to
`"Monitor down"`).  No branch ever resolves an incident.  Returns
whether the new status is `up`. -/
def run_check (net : Checker → ProbeResult) (freshId : String) (now : Int)
    (s : DB) (mid : String) : Bool × DB :=
  match findMonitor s mid with
  | none => (false, s)
  | some m =>
    let result := dispatch_result net s mid m.type
    let new_status := result.status
    let m2 := advance_monitor m result now
    let monitors2 := s.monitors.map (fun x => if x.id == mid then m2 else x)
    let hb : Heartbeat :=
      { monitor_id := mid, timestamp := now, status := new_status,
        response_time_ms := result.response_time_ms }
    let incidents2 :=
      if m.status == "up" && new_status == "down" then
        s.incidents ++
          [{ id := freshId, monitor_id := mid, started_at := now,
             resolved_at := none, duration_s := none,
             cause := result.reason.getD "Monitor down", notified := false }]
      else s.incidents
    (new_status == "up", ⟨monitors2, s.heartbeats ++ [hb], incidents2⟩)

/-- The loop body of `run_all_checks`: run `run_check` on each selected
monitor id in order, threading the store through; the fresh incident ids
are drawn from a counter.  The network oracle is keyed by monitor id
since each monitor has its own target. -/
def runChecksList (net : String → Checker → ProbeResult) (now : Int) :
    List String → Nat → DB → List (String × Bool) × DB
  | [], _, s => ([], s)
  | mid :: rest, k, s =>
    let step := run_check (net mid) (toString k) now s mid
    let tail := runChecksList net now rest (k + 1) step.2
    ((mid, step.1) :: tail.1, tail.2)

/-- Source `run_all_checks` (lines 332-343): select the ids of the
monitors whose status is not `paused` — this is the only exclusion the
query makes — then run one check per selected id. -/
def run_all_checks (net : String → Checker → ProbeResult) (now : Int)
    (s : DB) : List (String × Bool) × DB :=
  let ids := (s.monitors.filter (fun m => m.status != "paused")).map
    (fun m => m.id)
  runChecksList net now ids 0 s

/-- Source `resolve_incident` (lines 423-445): look the incident up by
id; a missing id returns `False` with the store untouched; otherwise set
`resolved_at` to now and `duration_s` to now minus `started_at` —
whatever `resolved_at` held before — and return `True`. -/
def resolve_incident (now : Int) (s : DB) (iid : String) : Bool × DB :=
  match s.incidents.find? (fun i => i.id == iid) with
  | none => (false, s)
  | some i =>
    let dur := now - i.started_at
    let incidents2 := s.incidents.map (fun x =>
      if x.id == iid then { x with resolved_at := some now, duration_s := some dur }
      else x)
    (true, ⟨s.monitors, s.heartbeats, incidents2⟩)

/-- Source `get_uptime_percent` (lines 358-373).  The SQL
`SELECT SUM(duration_s) ... WHERE monitor_id = ? AND started_at > ?`
sums the non-null `duration_s` of the incidents in the window — `SUM`
skips NULLs, so a still-open incident (whose `duration_s` is NULL)
contributes nothing — and `fetchone()[0] or 0` turns an empty window
into 0.  The percentage is `max(0, (1 - downtime / (days*86400)) * 100)`.
The source divides by `days * 86400` unguarded, so the model is faithful
only for `days > 0` (Python raises `ZeroDivisionError` at `days = 0`). -/
def get_uptime_percent (now : Int) (days : Nat) (s : DB) (mid : String) : ℚ :=
  let cutoff : Int := now - (days : Int) * 86400
  let downtime : Int :=
    ((s.incidents.filter (fun i =>
        i.monitor_id == mid && cutoff < i.started_at)).filterMap
      (fun i => i.duration_s)).sum
  max 0 ((1 - (downtime : ℚ) / ((days : ℚ) * 86400)) * 100)

/-- Source `get_response_time_avg` (lines 375-388).  The SQL
`SELECT AVG(response_time_ms) ... WHERE monitor_id = ? AND timestamp > ?
AND response_time_ms IS NOT NULL` averages over the selected rows, is
NULL when no row qualifies, and `fetchone()[0] or 0` turns that into 0. -/
def get_response_time_avg (now : Int) (hours : Nat) (s : DB) (mid : String) : ℚ :=
  let cutoff : Int := now - (hours : Int) * 3600
  let rows := s.heartbeats.filter (fun h =>
    h.monitor_id == mid && cutoff < h.timestamp && h.response_time_ms.isSome)
  if rows.length = 0 then 0
  else ((rows.filterMap (fun h => h.response_time_ms)).sum) / (rows.length : ℚ)

/-- Number of open incidents (resolved_at IS NULL) a monitor carries;
this is the quantity the spec's one-open-incident invariant bounds. -/
def openIncidents (s : DB) (mid : String) : Nat :=
  (s.incidents.filter (fun i =>
    i.monitor_id == mid && i.resolved_at == none)).length

/-- Replay a sequence of probe outcomes through `run_check` for one
monitor: outcome `k` of the list is checked at time `now + k` with fresh
incident id `toString k` (one check per scheduler tick). -/
def replay (s : DB) (mid : String) (now : Int) : List ProbeResult → Nat → DB
  | [], _ => s
  | r :: rest, k =>
    replay (run_check (fun _ => r) (toString k) (now + (k : Int)) s mid).2
      mid now rest (k + 1)

/-- Spec-side downtime: the summed `duration_s` of the incidents of the
monitor that started inside the window and are resolved
(`resolved_at` non-null); an open incident contributes nothing. -/
def resolvedWindowDowntime (s : DB) (mid : String) (cutoff : Int) : Int :=
  ((s.incidents.filter (fun i =>
      i.monitor_id == mid && cutoff < i.started_at && i.resolved_at.isSome)).filterMap
    (fun i => i.duration_s)).sum

/-- Spec-side response-time sample: the non-null `response_time_ms`
values of the monitor's heartbeats inside the window, in store order. -/
def windowResponseTimes (s : DB) (mid : String) (cutoff : Int) : List ℚ :=
  (s.heartbeats.filter (fun h =>
      h.monitor_id == mid && cutoff < h.timestamp)).filterMap
    (fun h => h.response_time_ms)

/-! Concrete fixtures used to instantiate the theorems below. -/

/-- A probe outcome classified `up` with a 50 ms response time. -/
def probeUp : ProbeResult :=
  { status := "up", response_time_ms := some 50, status_code := some 200,
    cert_expiry_days := none, reason := none }

/-- A probe outcome classified `down` caused by a timeout. -/
def probeDown : ProbeResult :=
  { status := "down", response_time_ms := none, status_code := none,
    cert_expiry_days := none, reason := some "timeout" }

/-- A ping monitor currently `up`. -/
def monUp : Monitor :=
  { id := "m1", name := "one", type := "ping", target := "host",
    interval_s := 60, timeout_s := 10, retries := 0, status := "up",
    up_since := some 0, last_check := none, response_time_ms := none,
    cert_expiry_days := none, tags := [] }

/-- The same monitor currently `down`. -/
def monDown : Monitor := { monUp with status := "down", up_since := none }

/-- The same monitor in its initial `unknown` state. -/
def monUnknown : Monitor := { monUp with status := "unknown", up_since := none }

/-- The same monitor in `maintenance`. -/
def monMaint : Monitor := { monUp with status := "maintenance", up_since := none }

/-- Store with the single `up` monitor. -/
def dbUp : DB := ⟨[monUp], [], []⟩

/-- Store with the single `down` monitor. -/
def dbDown : DB := ⟨[monDown], [], []⟩

/-- Store with the single `unknown` monitor. -/
def dbUnknown : DB := ⟨[monUnknown], [], []⟩

/-- Store with the single `maintenance` monitor. -/
def dbMaint : DB := ⟨[monMaint], [], []⟩

/-- Store with no monitors at all. -/
def dbEmpty : DB := ⟨[], [], []⟩

/-- An open incident of monitor m1 that started at time 100. -/
def openInc : Incident :=
  { id := "i0", monitor_id := "m1", started_at := 100, resolved_at := none,
    duration_s := none, cause := "timeout", notified := false }

/-- Store where m1 is down and carries the open incident. -/
def dbDownOpen : DB := ⟨[monDown], [], [openInc]⟩

/-- An incident of m1 that was already resolved (20 - 10 = 10 seconds). -/
def resolvedInc : Incident :=
  { id := "r0", monitor_id := "m1", started_at := 10, resolved_at := some 20,
    duration_s := some 10, cause := "blip", notified := false }

/-- Store holding the already-resolved incident. -/
def dbResolved : DB := ⟨[monUp], [], [resolvedInc]⟩

/-- Store with heartbeat and incident history for the metric queries:
three heartbeats (one with a null response time) and one resolved plus
one open incident, all inside the last day from time 100. -/
def dbMetrics : DB :=
  ⟨[monUp],
   [⟨"m1", 10, "up", some 50⟩, ⟨"m1", 20, "down", none⟩,
    ⟨"m1", 30, "up", some 30⟩],
   [⟨"ia", "m1", 5, some 10, some 5, "blip", false⟩,
    ⟨"ib", "m1", 50, none, none, "outage", false⟩]⟩

/-! Helper lemmas about the store operations. -/

/-- An `UPDATE ... WHERE id = ?` after a successful `SELECT` of the same
row: when the rewrite `f` keeps the key, looking the key up in the
rewritten table returns the rewritten row. -/
theorem find_map_update {α : Type} (p : α → Bool) (f : α → α)
    (hf : ∀ x, p x = true → p (f x) = true) :
    ∀ (l : List α) (a : α), l.find? p = some a →
      (l.map fun x => if p x then f x else x).find? p = some (f a) := by
  intro l
  induction l with
  | nil => intro a h; simp [List.find?] at h
  | cons x xs ih =>
    intro a h
    by_cases hx : p x
    · rw [List.find?_cons_of_pos _ hx] at h
      cases h
      simp only [List.map_cons, if_pos hx]
      rw [List.find?_cons_of_pos _ (hf x hx)]
    · simp only [List.map_cons, if_neg hx]
      rw [List.find?_cons_of_neg _ hx] at h
      rw [List.find?_cons_of_neg _ hx]
      exact ih a h

/-- `advance_monitor` does not touch the id. -/
theorem advance_monitor_id (m : Monitor) (r : ProbeResult) (now : Int) :
    (advance_monitor m r now).id = m.id := rfl

/-- `advance_monitor` does not touch the type. -/
theorem advance_monitor_type (m : Monitor) (r : ProbeResult) (now : Int) :
    (advance_monitor m r now).type = m.type := rfl

/-- `advance_monitor` installs the probe's classification as status. -/
theorem advance_monitor_status (m : Monitor) (r : ProbeResult) (now : Int) :
    (advance_monitor m r now).status = r.status := rfl

/-- After a successful `run_check`, looking the monitor up again yields
exactly the advanced row. -/
theorem findMonitor_run_check (net : Checker → ProbeResult) (fid : String)
    (now : Int) (s : DB) (mid : String) (m : Monitor)
    (hm : findMonitor s mid = some m) :
    findMonitor (run_check net fid now s mid).2 mid =
      some (advance_monitor m (dispatch_result net s mid m.type) now) := by
  have hm0 : s.monitors.find? (fun x => x.id == mid) = some m := hm
  have hpm : (m.id == mid) = true := by
    have h2 := List.find?_some hm0
    simpa using h2
  have hpb : ((advance_monitor m (dispatch_result net s mid m.type) now).id == mid) = true := by
    rw [advance_monitor_id]; exact hpm
  simp only [run_check, findMonitor, hm0]
  exact find_map_update _ (fun _ => advance_monitor m (dispatch_result net s mid m.type) now)
    (fun x _ => hpb) s.monitors m hm0

/-- The incident-table effect of one `run_check`: a fresh open incident
is appended exactly on an up-to-down transition, nothing else changes. -/
theorem run_check_incidents (net : Checker → ProbeResult) (fid : String)
    (now : Int) (s : DB) (mid : String) (m : Monitor)
    (hm : findMonitor s mid = some m) :
    (run_check net fid now s mid).2.incidents =
      if m.status == "up" && (dispatch_result net s mid m.type).status == "down" then
        s.incidents ++
          [{ id := fid, monitor_id := mid, started_at := now,
             resolved_at := none, duration_s := none,
             cause := (dispatch_result net s mid m.type).reason.getD "Monitor down",
             notified := false }]
      else s.incidents := by
  simp only [run_check, hm]

/-- The boolean `run_check` returns is whether the new status is `up`. -/
theorem run_check_fst (net : Checker → ProbeResult) (fid : String)
    (now : Int) (s : DB) (mid : String) (m : Monitor)
    (hm : findMonitor s mid = some m) :
    (run_check net fid now s mid).1 =
      ((dispatch_result net s mid m.type).status == "up") := by
  simp only [run_check, hm]

/-- Restricting a filtered list to the rows where `f` is defined does
not change its `filterMap f` image. -/
theorem filterMap_filter_isSome {α β : Type} (l : List α) (p : α → Bool)
    (f : α → Option β) :
    (l.filter p).filterMap f =
      (l.filter (fun a => p a && (f a).isSome)).filterMap f := by
  induction l with
  | nil => rfl
  | cons x xs ih =>
    by_cases hx : p x
    · cases hf : f x with
      | none => simp [List.filter, hx, hf, List.filterMap, ih]
      | some b => simp [List.filter, hx, hf, List.filterMap, ih]
    · simp [List.filter, hx, ih]

/-- The size of the `filterMap f` image of a filtered list is the count
of filtered rows where `f` is defined. -/
theorem length_filterMap_filter {α β : Type} (l : List α) (p : α → Bool)
    (f : α → Option β) :
    ((l.filter p).filterMap f).length =
      (l.filter (fun a => p a && (f a).isSome)).length := by
  induction l with
  | nil => rfl
  | cons x xs ih =>
    by_cases hx : p x
    · cases hf : f x with
      | none => simp [List.filter, hx, hf, List.filterMap, ih]
      | some b => simp [List.filter, hx, hf, List.filterMap, ih]
    · simp [List.filter, hx, ih]

/-- The ids reported by the check loop are exactly the ids it was given. -/
theorem runChecksList_fst (net : String → Checker → ProbeResult) (now : Int) :
    ∀ (ids : List String) (k : Nat) (s : DB),
      ((runChecksList net now ids k s).1).map Prod.fst = ids := by
  intro ids
  induction ids with
  | nil => intro k s; rfl
  | cons mid rest ih => intro k s; simp [runChecksList, ih]

/-! Claim theorems. -/

/-- C1: the claimed invariant — at most one incident with null
`resolved_at` per monitor after replaying any outcome sequence through
`run_check` — fails on the code.  `run_check` has no branch that
resolves an incident, so replaying down, up, down against a monitor
that starts `up` opens an incident at the first down, leaves it open
across the recovery, and opens a second one at the next down: two open
incidents for the same monitor. -/
theorem replay_two_open_incidents :
    monUp.status = "up"
    ∧ openIncidents dbUp "m1" = 0
    ∧ openIncidents (replay dbUp "m1" 100 [probeDown, probeUp, probeDown] 0) "m1"
        = 2 := by decide

/-- C2: the claim — an `up` classification for a monitor with an open
incident closes that incident, setting `resolved_at` and `duration` —
fails on the code.  Monitor m1 is down with an incident opened at time
100; an `up` outcome at time 200 flips the status to up and returns
True, yet the incident row is bit-for-bit unchanged: `resolved_at`
stays null instead of becoming 200 with duration 100. -/
theorem recovery_leaves_incident_open :
    openInc.resolved_at = none
    ∧ (run_check (fun _ => probeUp) "i9" 200 dbDownOpen "m1").1 = true
    ∧ (run_check (fun _ => probeUp) "i9" 200 dbDownOpen "m1").2.incidents
        = [openInc] := by decide

/-- C5 counterexample: the claim — every type in http, tcp, ping, dns,
cert is dispatched to its own matching executor, and dns in particular
performs a name resolution rather than aliasing the ping probe — fails:
the dispatch table routes the `dns` type to the very same ping executor
as the `ping` type (source line 291, `# Simplified`), and the `cert`
type has no dispatch arm at all even though the `check_cert` executor
exists, so it falls through to the unknown branch. -/
theorem dispatch_dns_aliases_ping :
    dispatch "dns" = dispatch "ping"
    ∧ dispatch "dns" = some Checker.ping
    ∧ dispatch "cert" = none := by decide

/-- C5 amended: dispatch selects the matching executor for http, tcp and
ping; the dns type is aliased to the ping executor; cert and every
other unmatched type produce the outcome classified `unknown`. -/
theorem dispatch_table_amended :
    dispatch "http" = some Checker.http
    ∧ dispatch "tcp" = some Checker.tcp
    ∧ dispatch "ping" = some Checker.ping
    ∧ dispatch "dns" = some Checker.ping
    ∧ (∀ t : String, t ∉ (["http", "tcp", "ping", "dns"] : List String) →
        dispatch t = none)
    ∧ (∀ (net : Checker → ProbeResult) (s : DB) (mid t : String),
        dispatch t = none → dispatch_result net s mid t = unknownResult) := by
  refine ⟨by decide, by decide, by decide, by decide, ?_, ?_⟩
  · intro t ht
    simp only [List.mem_cons, List.mem_singleton, not_or] at ht
    obtain ⟨h1, h2, h3, h4, _⟩ := ht
    simp [dispatch, h1, h2, h3, h4]
  · intro net s mid t h
    simp [dispatch_result, h]

/-- C5 amended, witness: the cert type is not in the dispatch table and
its dispatched outcome is the unknown dict. -/
theorem dispatch_table_amended_witness :
    dispatch "cert" = none
    ∧ dispatch_result (fun _ => probeUp) dbUp "m1" "cert" = unknownResult :=
  ⟨dispatch_table_amended.2.2.2.2.1 "cert" (by decide),
   dispatch_table_amended.2.2.2.2.2 (fun _ => probeUp) dbUp "m1" "cert"
     (dispatch_table_amended.2.2.2.2.1 "cert" (by decide))⟩

/-- C6 counterexample: the claim — `run_all_checks` checks a monitor iff
its status is neither paused nor maintenance — fails: the selection
query only excludes `paused`, so a monitor in `maintenance` is probed.
Here the store's only monitor is in maintenance and it shows up in the
result set of a full run. -/
theorem maintenance_monitor_checked :
    monMaint.status = "maintenance"
    ∧ ((run_all_checks (fun _ _ => probeUp) 0 dbMaint).1).map Prod.fst
        = ["m1"] := by decide

/-- C6 amended: `run_all_checks` runs a check for a monitor iff the
monitor's status is not `paused`; maintenance monitors are checked too.
The checked ids are exactly the non-paused monitors' ids, in table
order. -/
theorem run_all_checks_skips_paused_only (net : String → Checker → ProbeResult)
    (now : Int) (s : DB) :
    ((run_all_checks net now s).1).map Prod.fst =
      (s.monitors.filter (fun m => m.status != "paused")).map (fun m => m.id) := by
  simp only [run_all_checks]
  exact runChecksList_fst net now _ 0 s

/-- C9 counterexample: the claim — every check operation, `run_check`
included, returns an explicit not-found result for a missing monitor id
— fails for `run_check`: it returns the bare boolean `False`, the very
value it returns for a monitor that exists and is down, so the caller
receives no indication that distinguishes "monitor not found" from
"monitor down".  (The store is still left untouched and nothing is
raised.) -/
theorem run_check_not_found_not_explicit :
    findMonitor dbEmpty "m1" = none
    ∧ run_check (fun _ => probeDown) "i1" 0 dbEmpty "m1" = (false, dbEmpty)
    ∧ findMonitor dbDown "m1" = some monDown
    ∧ (run_check (fun _ => probeDown) "i1" 0 dbDown "m1").1 = false := by decide

/-- C9 amended: for a monitor id absent from the store, `check_http`,
`check_tcp`, `check_ping` and `check_cert` return the explicit
not-found error dict, while `run_check` returns `False` — the same
value it yields for a down monitor — and every one of them leaves the
monitors, heartbeats and incidents tables unchanged; none raises. -/
theorem check_not_found_behavior (net : Checker → ProbeResult) (fid : String)
    (now : Int) (s : DB) (mid : String) (h : findMonitor s mid = none) :
    check_http net s mid = notFoundResult
    ∧ check_tcp net s mid = notFoundResult
    ∧ check_ping net s mid = notFoundResult
    ∧ check_cert net s mid = notFoundResult
    ∧ run_check net fid now s mid = (false, s) := by
  refine ⟨?_, ?_, ?_, ?_, ?_⟩ <;>
    simp [check_http, check_tcp, check_ping, check_cert, run_check, h]

/-- C9 amended, witness: concrete missing id over the empty store. -/
theorem check_not_found_behavior_witness :
    check_http (fun _ => probeDown) dbEmpty "zz" = notFoundResult
    ∧ check_tcp (fun _ => probeDown) dbEmpty "zz" = notFoundResult
    ∧ check_ping (fun _ => probeDown) dbEmpty "zz" = notFoundResult
    ∧ check_cert (fun _ => probeDown) dbEmpty "zz" = notFoundResult
    ∧ run_check (fun _ => probeDown) "f" 0 dbEmpty "zz" = (false, dbEmpty) :=
  check_not_found_behavior (fun _ => probeDown) "f" 0 dbEmpty "zz" (by decide)

/-- C3: an up-to-down transition followed by a second down outcome
creates exactly one incident.  When the stored status is `up` and the
probe classifies `down`, `run_check` appends exactly one fresh open
incident whose cause is the probe's reason (defaulting to
"Monitor down"); the follow-up check, whose stored status is now
`down`, appends nothing even though its outcome is `down` again, and
reports not-up. -/
theorem single_incident_per_outage
    (net1 net2 : Checker → ProbeResult) (f1 f2 : String) (t1 t2 : Int)
    (s : DB) (mid : String) (m : Monitor)
    (hm : findMonitor s mid = some m)
    (hup : m.status = "up")
    (hd1 : (dispatch_result net1 s mid m.type).status = "down")
    (hd2 : (dispatch_result net2 (run_check net1 f1 t1 s mid).2 mid m.type).status
      = "down") :
    (run_check net1 f1 t1 s mid).2.incidents =
      s.incidents ++
        [{ id := f1, monitor_id := mid, started_at := t1, resolved_at := none,
           duration_s := none,
           cause := (dispatch_result net1 s mid m.type).reason.getD "Monitor down",
           notified := false }]
    ∧ (run_check net2 f2 t2 (run_check net1 f1 t1 s mid).2 mid).2.incidents
        = (run_check net1 f1 t1 s mid).2.incidents
    ∧ (run_check net2 f2 t2 (run_check net1 f1 t1 s mid).2 mid).1 = false := by
  have h1 := run_check_incidents net1 f1 t1 s mid m hm
  have hcond : ((("up" : String) == "up") && (("down" : String) == "down")) = true := by
    decide
  rw [hup, hd1, if_pos hcond] at h1
  have hm1 := findMonitor_run_check net1 f1 t1 s mid m hm
  have h2 := run_check_incidents net2 f2 t2 (run_check net1 f1 t1 s mid).2 mid _ hm1
  rw [advance_monitor_status, hd1] at h2
  simp only [advance_monitor_type] at h2
  have hdu : (("down" : String) == "up") = false := by decide
  rw [hdu, Bool.false_and, if_neg (by simp)] at h2
  have h3 := run_check_fst net2 f2 t2 (run_check net1 f1 t1 s mid).2 mid _ hm1
  rw [advance_monitor_type, hd2, hdu] at h3
  exact ⟨h1, h2, h3⟩

/-- C3 witness: the up monitor receives two consecutive down outcomes;
one incident appears after the first, none after the second. -/
theorem single_incident_per_outage_witness :
    (run_check (fun _ => probeDown) "a" 1 dbUp "m1").2.incidents =
      dbUp.incidents ++
        [{ id := "a", monitor_id := "m1", started_at := 1, resolved_at := none,
           duration_s := none,
           cause := (dispatch_result (fun _ => probeDown) dbUp "m1"
             monUp.type).reason.getD "Monitor down",
           notified := false }]
    ∧ (run_check (fun _ => probeDown) "b" 2
        (run_check (fun _ => probeDown) "a" 1 dbUp "m1").2 "m1").2.incidents
        = (run_check (fun _ => probeDown) "a" 1 dbUp "m1").2.incidents
    ∧ (run_check (fun _ => probeDown) "b" 2
        (run_check (fun _ => probeDown) "a" 1 dbUp "m1").2 "m1").1 = false :=
  single_incident_per_outage (fun _ => probeDown) (fun _ => probeDown) "a" "b" 1 2
    dbUp "m1" monUp (by decide) (by decide) (by decide) (by decide)

/-- C4: after a `run_check` on a monitor whose stored row satisfies the
up_since invariant, the refreshed row satisfies it again — `up_since`
is non-null iff the status is `up` — and moreover: on a transition into
`up` from a non-up state `up_since` becomes now, when the previous
status was already `up` it is unchanged, and for any non-up new status
it is null. -/
theorem up_since_iff_up
    (net : Checker → ProbeResult) (fid : String) (now : Int)
    (s : DB) (mid : String) (m m2 : Monitor)
    (hm : findMonitor s mid = some m)
    (hinv : m.up_since.isSome ↔ m.status = "up")
    (hm2 : findMonitor (run_check net fid now s mid).2 mid = some m2) :
    (m2.up_since.isSome ↔ m2.status = "up")
    ∧ (m2.status = "up" → m.status = "up" → m2.up_since = m.up_since)
    ∧ (m2.status = "up" → ¬ m.status = "up" → m2.up_since = some now)
    ∧ (¬ m2.status = "up" → m2.up_since = none) := by
  have h := findMonitor_run_check net fid now s mid m hm
  rw [hm2] at h
  have hm2eq : m2 = advance_monitor m (dispatch_result net s mid m.type) now :=
    Option.some.inj h
  subst hm2eq
  by_cases hr : (dispatch_result net s mid m.type).status = "up"
  · refine ⟨?_, ?_, ?_, ?_⟩
    · cases hu : m.up_since <;>
        simp [advance_monitor, advance_monitor_status, hr, hu]
    · intro _ hmu
      have := hinv.mpr hmu
      cases hu : m.up_since with
      | none => rw [hu] at this; simp at this
      | some u => simp [advance_monitor, hr, hu]
    · intro _ hmu
      have hnone : m.up_since = none := by
        cases hu : m.up_since with
        | none => rfl
        | some u => exact absurd (hinv.mp (by rw [hu]; rfl)) hmu
      simp [advance_monitor, hr, hnone]
    · intro hcon
      exact absurd (by rw [advance_monitor_status]; exact hr) hcon
  · refine ⟨?_, ?_, ?_, ?_⟩
    · simp [advance_monitor, advance_monitor_status, hr]
    · intro hcon
      rw [advance_monitor_status] at hcon
      exact absurd hcon hr
    · intro hcon
      rw [advance_monitor_status] at hcon
      exact absurd hcon hr
    · intro _
      simp [advance_monitor, hr]

/-- C4 witness: the unknown monitor comes up at time 5; its refreshed
row carries `up_since = 5` and satisfies the iff. -/
theorem up_since_iff_up_witness :
    ((advance_monitor monUnknown probeUp 5).up_since.isSome
        ↔ (advance_monitor monUnknown probeUp 5).status = "up")
    ∧ ((advance_monitor monUnknown probeUp 5).status = "up" →
        monUnknown.status = "up" →
        (advance_monitor monUnknown probeUp 5).up_since = monUnknown.up_since)
    ∧ ((advance_monitor monUnknown probeUp 5).status = "up" →
        ¬ monUnknown.status = "up" →
        (advance_monitor monUnknown probeUp 5).up_since = some 5)
    ∧ (¬ (advance_monitor monUnknown probeUp 5).status = "up" →
        (advance_monitor monUnknown probeUp 5).up_since = none) := by
  have h := up_since_iff_up (fun _ => probeUp) "f" 5 dbUnknown "m1" monUnknown
    (advance_monitor monUnknown probeUp 5) (by decide)
    (by decide) (by decide)
  simpa using h

/-- C10: `resolve_incident` does not require the incident to be open.
For any incident id present in the store — open or already resolved —
it returns True, stamps `resolved_at` with now, overwrites `duration_s`
with now minus `started_at`, and touches nothing else. -/
theorem resolve_incident_overwrites
    (now : Int) (s : DB) (iid : String) (inc : Incident)
    (h : s.incidents.find? (fun i => i.id == iid) = some inc) :
    (resolve_incident now s iid).1 = true
    ∧ (resolve_incident now s iid).2.incidents.find? (fun i => i.id == iid)
        = some { inc with resolved_at := some now, duration_s := some (now - inc.started_at) }
    ∧ (resolve_incident now s iid).2.monitors = s.monitors
    ∧ (resolve_incident now s iid).2.heartbeats = s.heartbeats := by
  refine ⟨?_, ?_, ?_, ?_⟩
  · simp [resolve_incident, h]
  · simp only [resolve_incident, h]
    exact find_map_update _
      (fun x => { x with resolved_at := some now, duration_s := some (now - inc.started_at) })
      (fun x hx => hx) s.incidents inc h
  · simp [resolve_incident, h]
  · simp [resolve_incident, h]

/-- C10 witness: re-resolving the already-resolved incident r0 at time
50 returns True and overwrites its resolution to 50 with duration 40. -/
theorem resolve_incident_overwrites_witness :
    (resolve_incident 50 dbResolved "r0").1 = true
    ∧ (resolve_incident 50 dbResolved "r0").2.incidents.find?
        (fun i => i.id == "r0")
        = some { resolvedInc with resolved_at := some 50, duration_s := some (50 - resolvedInc.started_at) }
    ∧ (resolve_incident 50 dbResolved "r0").2.monitors = dbResolved.monitors
    ∧ (resolve_incident 50 dbResolved "r0").2.heartbeats = dbResolved.heartbeats :=
  resolve_incident_overwrites 50 dbResolved "r0" resolvedInc (by decide)

/-- C7: over a window of `days` days the uptime percentage is
`max 0 ((1 - downtime / (days * 86400)) * 100)` where downtime sums the
`duration_s` of the monitor's resolved incidents that started inside
the window — an open incident contributes nothing, because its
`duration_s` is still null and SQL `SUM` skips nulls — and a window
with no incidents at all yields exactly 100.  The well-formedness
hypothesis (`duration_s` is set iff `resolved_at` is set) is exactly
what the engine maintains: `run_check` inserts incidents with both
null and `resolve_incident` sets both. -/
theorem uptime_percent_resolved_window
    (now : Int) (days : Nat) (s : DB) (mid : String)
    (hwf : ∀ i ∈ s.incidents, i.duration_s.isSome = i.resolved_at.isSome)
    (hdays : 0 < days) :
    get_uptime_percent now days s mid =
      max 0 ((1 - (resolvedWindowDowntime s mid (now - (days : Int) * 86400) : ℚ)
          / ((days : ℚ) * 86400)) * 100)
    ∧ (s.incidents.filter (fun i =>
          i.monitor_id == mid && now - (days : Int) * 86400 < i.started_at) = []
        → get_uptime_percent now days s mid = 100) := by
  have hkey :
      (s.incidents.filter (fun i =>
          i.monitor_id == mid && now - (days : Int) * 86400 < i.started_at)).filterMap
        (fun i => i.duration_s)
      = (s.incidents.filter (fun i =>
          i.monitor_id == mid && now - (days : Int) * 86400 < i.started_at
            && i.resolved_at.isSome)).filterMap (fun i => i.duration_s) := by
    rw [filterMap_filter_isSome]
    congr 1
    apply List.filter_congr
    intro i hi
    rw [hwf i hi]
  constructor
  · simp only [get_uptime_percent, resolvedWindowDowntime]
    rw [hkey]
  · intro hempty
    simp only [get_uptime_percent]
    rw [hempty]
    norm_num

/-- C7 witness: over the last day from time 100 the store dbMetrics has
one resolved incident (5 s) and one open incident; the uptime formula
holds with only the resolved 5 seconds counted. -/
theorem uptime_percent_resolved_window_witness :
    get_uptime_percent 100 1 dbMetrics "m1" =
      max 0 ((1 - (resolvedWindowDowntime dbMetrics "m1"
          (100 - ((1 : Nat) : Int) * 86400) : ℚ)
          / (((1 : Nat) : ℚ) * 86400)) * 100)
    ∧ (dbMetrics.incidents.filter (fun i =>
          i.monitor_id == "m1" && 100 - ((1 : Nat) : Int) * 86400 < i.started_at) = []
        → get_uptime_percent 100 1 dbMetrics "m1" = 100) := by
  exact uptime_percent_resolved_window 100 1 dbMetrics "m1" (by decide) (by decide)

/-- C8: the average response time over a window of `hours` hours is the
arithmetic mean of the non-null `response_time_ms` values of the
monitor's heartbeats inside the window, and a window with no
heartbeats, or only null response times, yields 0. -/
theorem response_time_avg_mean (now : Int) (hours : Nat) (s : DB) (mid : String) :
    get_response_time_avg now hours s mid =
      if windowResponseTimes s mid (now - (hours : Int) * 3600) = [] then 0
      else (windowResponseTimes s mid (now - (hours : Int) * 3600)).sum
        / ((windowResponseTimes s mid (now - (hours : Int) * 3600)).length : ℚ) := by
  have hsum : windowResponseTimes s mid (now - (hours : Int) * 3600)
      = (s.heartbeats.filter (fun h =>
          h.monitor_id == mid && now - (hours : Int) * 3600 < h.timestamp
            && h.response_time_ms.isSome)).filterMap (fun h => h.response_time_ms) := by
    simp only [windowResponseTimes]
    exact filterMap_filter_isSome s.heartbeats _ _
  have hlen : (windowResponseTimes s mid (now - (hours : Int) * 3600)).length
      = (s.heartbeats.filter (fun h =>
          h.monitor_id == mid && now - (hours : Int) * 3600 < h.timestamp
            && h.response_time_ms.isSome)).length := by
    simp only [windowResponseTimes]
    exact length_filterMap_filter s.heartbeats _ _
  simp only [get_response_time_avg]
  by_cases h0 : (s.heartbeats.filter (fun h =>
      h.monitor_id == mid && now - (hours : Int) * 3600 < h.timestamp
        && h.response_time_ms.isSome)).length = 0
  · rw [if_pos h0]
    have hw : windowResponseTimes s mid (now - (hours : Int) * 3600) = [] :=
      List.length_eq_zero.mp (hlen.trans h0)
    rw [if_pos hw]
  · rw [if_neg h0]
    have hw : ¬ windowResponseTimes s mid (now - (hours : Int) * 3600) = [] := by
      intro hcon
      apply h0
      rw [← hlen, hcon]
      rfl
    rw [if_neg hw, hlen, hsum]

end BlackroadUptime
